import Mathlib

/-!
Verification of the task-list repository: a shallow embedding of
`app/task.py`, `app/task_id.py`, `app/task_manager.py` and
`app/task_validator.py`, together with theorems settling the spec claims.

Python strings are modelled as Lean `String` (ASCII behaviour of
`str.lower`/`str.strip`/`\d` is modelled exactly; the claims only involve
ASCII data).  Python exceptions are modelled with `Except`: an operation
that raises returns `.error e` and, the sources mutating only after all
checks pass, leaves the modelled state unchanged by construction.
-/

namespace Cruddy

/-- Whitespace characters stripped by Python `str.strip()` (ASCII part). -/
def pyIsSpace (c : Char) : Bool :=
  c = ' ' || c = '\t' || c = '\n' || c = '\x0d' || c = '\x0b' || c = '\x0c'

/-- Model of Python `str.strip()`: drop leading and trailing whitespace. -/
def pyStrip (s : String) : String :=
  ⟨((s.data.dropWhile pyIsSpace).reverse.dropWhile pyIsSpace).reverse⟩

/-- ASCII lower-casing of one character, as Python `str.lower` does on ASCII. -/
def pyCharLower (c : Char) : Char :=
  if 'A' ≤ c && c ≤ 'Z' then Char.ofNat (c.toNat + 32) else c

/-- Model of Python `str.lower()` (ASCII). -/
def pyLower (s : String) : String :=
  ⟨s.data.map pyCharLower⟩

/-- Numeric value of a decimal digit character. -/
def digitVal (c : Char) : Nat := c.toNat - 48

/-- Value of a decimal digit string, most significant digit first. -/
def valOfChars (l : List Char) : Nat :=
  l.foldl (fun a c => a * 10 + digitVal c) 0

/-- Model of a Python `datetime` value (fields the program uses). -/
structure DateTime where
  year : Nat
  month : Nat
  day : Nat
  hour : Nat
  minute : Nat
deriving DecidableEq

/-- Gregorian leap-year rule, as used by Python's `datetime`. -/
def isLeap (y : Nat) : Bool :=
  y % 4 = 0 && (y % 100 ≠ 0 || y % 400 = 0)

/-- Number of days of month `m` in year `y` (proleptic Gregorian). -/
def daysInMonth (m y : Nat) : Nat :=
  if m = 2 then (if isLeap y then 29 else 28)
  else if m = 4 || m = 6 || m = 9 || m = 11 then 30
  else 31

/-- Split a character list at every `'/'` (auxiliary: current group and
later groups), modelling how `strptime` separates the `%m/%d/%Y` fields. -/
def splitSlashCore : List Char → List Char × List (List Char)
  | [] => ([], [])
  | c :: cs =>
    let r := splitSlashCore cs
    if c = '/' then ([], r.1 :: r.2) else (c :: r.1, r.2)

/-- All groups between `'/'` separators, in order. -/
def splitSlash (cs : List Char) : List (List Char) :=
  (splitSlashCore cs).1 :: (splitSlashCore cs).2

/-- Longest prefix of decimal digits together with the rest. -/
def spanDigits : List Char → List Char × List Char
  | [] => ([], [])
  | c :: cs =>
    if c.isDigit then
      let r := spanDigits cs
      (c :: r.1, r.2)
    else ([], c :: cs)

/-- Model of `re.match(r"\d{1,2}\/\d{1,2}\/\d{4}", s)`: an (unanchored)
prefix of `s` is 1-2 digits, `'/'`, 1-2 digits, `'/'`, 4 digits. -/
def regexDue (s : String) : Bool :=
  let p1 := spanDigits s.data
  1 ≤ p1.1.length && p1.1.length ≤ 2 &&
    match p1.2 with
    | '/' :: r2 =>
      let p2 := spanDigits r2
      1 ≤ p2.1.length && p2.1.length ≤ 2 &&
        match p2.2 with
        | '/' :: r4 => 4 ≤ (spanDigits r4).1.length
        | _ => false
    | _ => false

/-- Model of `datetime.strptime(s, "%m/%d/%Y")`: `some` midnight datetime on
success, `none` where Python raises `ValueError`.  The string must be exactly
one-or-two-digit month `/` one-or-two-digit day `/` four-digit year, denoting
a real calendar date with year at least 1. -/
def pyStrptimeMDY (s : String) : Option DateTime :=
  match splitSlash s.data with
  | [a, b, c] =>
    if a.all Char.isDigit && 1 ≤ a.length && a.length ≤ 2 &&
       b.all Char.isDigit && 1 ≤ b.length && b.length ≤ 2 &&
       c.all Char.isDigit && c.length = 4 then
      let m := valOfChars a
      let d := valOfChars b
      let y := valOfChars c
      if 1 ≤ m && m ≤ 12 && 1 ≤ d && d ≤ daysInMonth m y && 1 ≤ y then
        some ⟨y, m, d, 0, 0⟩
      else none
    else none
  | _ => none

/-- The value passed to due-date validation/assignment: Python `None`, a
string, or a `datetime` object. -/
inductive DueDateInput where
  | none : DueDateInput
  | str (s : String) : DueDateInput
  | dt (d : DateTime) : DueDateInput
deriving DecidableEq

/-- `TaskValidator.VALID_STATUSES`. -/
def VALID_STATUSES : List String := ["pending", "in progress", "completed"]

/-- `TaskValidator.validate_title`: the argument is a string whose stripped
form is non-empty (`None` and non-strings fail the `isinstance` check). -/
def validate_title (new_title : Option String) : Bool :=
  match new_title with
  | some s => pyStrip s ≠ ""
  | Option.none => false

/-- `TaskValidator.validate_status`: the argument is a string whose
lower-cased form is in `VALID_STATUSES`. -/
def validate_status (new_status : Option String) : Bool :=
  match new_status with
  | some s => VALID_STATUSES.contains (pyLower s)
  | Option.none => false

/-- `TaskValidator.validate_due_date`: a `datetime` is valid; a string is
valid when it matches the prefix regex and `strptime` parses it; `None`
(and anything else) is invalid. -/
def validate_due_date (new_due_date : DueDateInput) : Bool :=
  match new_due_date with
  | .dt _ => true
  | .str s => regexDue s && (pyStrptimeMDY s).isSome
  | .none => false

/-- The `Task`-level exceptions of `app/task.py`, with the context each
constructor stores. -/
inductive TaskError where
  | invalidTaskTitleError (task_id : String) : TaskError
  | invalidTaskStatusError (task_id : String) (attempted : Option String) : TaskError
  | invalidTaskDueDateError (task_id : String) (attempted : DueDateInput) : TaskError
deriving DecidableEq

/-- The `Task` record of `app/task.py`. -/
structure Task where
  task_id : String
  title : String
  description : Option String
  due_date : DateTime
  status : String
deriving DecidableEq

/-- `Task.__eq__` restricted to two `Task` operands: ids match. -/
def taskEq (a b : Task) : Bool := a.task_id = b.task_id

/-- The `title` property setter. -/
def Task.setTitle (t : Task) (new_title : Option String) : Except TaskError Task :=
  if validate_title new_title then
    .ok { t with title := new_title.getD (t.title) }
  else .error (.invalidTaskTitleError t.task_id)

/-- The `status` property setter: validates, then stores `new_status.lower()`. -/
def Task.setStatus (t : Task) (new_status : Option String) : Except TaskError Task :=
  if validate_status new_status then
    .ok { t with status := pyLower (new_status.getD (t.status)) }
  else .error (.invalidTaskStatusError t.task_id new_status)

/-- The stored value of the `due_date` setter: a `datetime` is stored as-is,
a string is stored parsed (only reached after validation succeeded). -/
def resolveDue (d : DueDateInput) : DateTime :=
  match d with
  | .dt dt => dt
  | .str s => (pyStrptimeMDY s).getD ⟨1900, 1, 1, 0, 0⟩
  | .none => ⟨1900, 1, 1, 0, 0⟩

/-- The `due_date` property setter. -/
def Task.setDueDate (t : Task) (new_due_date : DueDateInput) : Except TaskError Task :=
  if validate_due_date new_due_date then
    .ok { t with due_date := resolveDue new_due_date }
  else .error (.invalidTaskDueDateError t.task_id new_due_date)

/-- Python truthiness of the `due_date` constructor argument. -/
def dueTruthy (d : DueDateInput) : Bool :=
  match d with
  | .none => false
  | .str s => s ≠ ""
  | .dt _ => true

/-- Python truthiness of the `status` constructor argument. -/
def statusTruthy (s : Option String) : Bool :=
  match s with
  | some s => s ≠ ""
  | Option.none => false

/-- `Task.__init__`: the freshly generated id is the `task_id` argument and
`datetime.now()` is the `now` argument.  Sets `title` (validated), then
`description`, then `due_date` (defaulting to `now` when falsy), then
`status` (defaulting to `"pending"` when falsy), failing in that order. -/
def mkTask (task_id : String) (now : DateTime) (title : Option String)
    (description : Option String) (due_date : DueDateInput)
    (status : Option String) : Except TaskError Task :=
  if validate_title title then
    let base : Task := ⟨task_id, title.getD (""), description, ⟨1900, 1, 1, 0, 0⟩, ""⟩
    let dueArg := if dueTruthy due_date then due_date else .dt now
    match base.setDueDate dueArg with
    | .error e => .error e
    | .ok t1 =>
      let stArg := if statusTruthy status then status else some ("pending")
      match t1.setStatus stArg with
      | .error e => .error e
      | .ok t2 => .ok t2
  else .error (.invalidTaskTitleError task_id)

/-- `Task.__str__`: `"<title> (ID #<task_id>)"`. -/
def taskStr (t : Task) : String :=
  t.title ++ " (ID #" ++ t.task_id ++ ")"

/-- An identifier value handed to `TaskManager.get_task` (a Python `int`
or `str`; stored ids are strings, so only a string can compare equal). -/
inductive IdArg where
  | int (n : Int) : IdArg
  | str (s : String) : IdArg
deriving DecidableEq

/-- Python equality `stored == supplied` between the stored (string) id and
the supplied identifier: an `int` never equals a `str`. -/
def idMatches (stored : String) (i : IdArg) : Bool :=
  match i with
  | .str s => stored = s
  | .int _ => false

/-- The `str()` rendering of an identifier value, used in the
`EmptyTaskListError` message built by `delete_task`. -/
def idArgStr (i : IdArg) : String :=
  match i with
  | .int n => toString n
  | .str s => s

/-- The argument of `TaskManager.delete_task` (`Union[int, Task]` in the
hints, but any Python value can arrive; the tests pass `str` ids). -/
inductive DelArg where
  | int (n : Int) : DelArg
  | str (s : String) : DelArg
  | task (t : Task) : DelArg
deriving DecidableEq

/-- Exceptions escaping `TaskManager` operations.  The first three model the
`TaskManagerError` subclasses of `app/task_manager.py`; `attributeError`
models the built-in `AttributeError` raised by `task.task_id` when
`delete_task` receives a plain string. -/
inductive MgrError where
  | emptyTaskListError (method_name : String) : MgrError
  | taskNotFoundError (task_id : IdArg) : MgrError
  | addDuplicateTaskError (task_title : String) : MgrError
  | attributeError : MgrError
deriving DecidableEq

/-- The `TaskManager` of `app/task_manager.py`: an ordered task list. -/
structure TaskManager where
  task_list : List Task
deriving DecidableEq

/-- `TaskManager.add_task`: append unless an equal (same-id) task is
already in the list, in which case `AddDuplicateTaskError` carries the
attempted task's title and the list is untouched. -/
def add_task (m : TaskManager) (task : Task) : Except MgrError TaskManager :=
  if m.task_list.any (fun e => taskEq e task) then
    .error (.addDuplicateTaskError task.title)
  else .ok ⟨m.task_list ++ [task]⟩

/-- `TaskManager.get_task`: `EmptyTaskListError` on an empty list, else the
first task whose id equals the supplied value, else `TaskNotFoundError`. -/
def get_task (m : TaskManager) (task_id : IdArg) : Except MgrError Task :=
  if m.task_list.isEmpty then .error (.emptyTaskListError ("get_task()"))
  else
    match m.task_list.find? (fun t => idMatches t.task_id task_id) with
    | some t => .ok t
    | Option.none => .error (.taskNotFoundError task_id)

/-- `TaskManager.get_all_tasks`. -/
def get_all_tasks (m : TaskManager) : List Task := m.task_list

/-- `TaskManager.delete_task`: first evaluates
`task if isinstance(task, int) else task.task_id` — which raises
`AttributeError` when given a plain string id — then checks for emptiness,
then resolves via `get_task` and removes the first equal task. -/
def delete_task (m : TaskManager) (task : DelArg) : Except MgrError TaskManager :=
  match task with
  | .str _ => .error .attributeError
  | _ =>
    let task_id : IdArg :=
      match task with
      | .int n => .int n
      | .task t => .str t.task_id
      | .str s => .str s
    if m.task_list.isEmpty then
      .error (.emptyTaskListError ("`delete_task()` for `task_id` == " ++ idArgStr task_id))
    else
      match m.task_list.find? (fun t => idMatches t.task_id task_id) with
      | some t => .ok ⟨m.task_list.eraseP (fun e => taskEq e t)⟩
      | Option.none => .error (.taskNotFoundError task_id)

/-- `TaskManager.__str__`: a `"Task List:"` header line, then for each task
the line `"  N.\t<task str>"` (two leading spaces, one-indexed), or the
fixed no-tasks line when the list is empty. -/
def managerStr (m : TaskManager) : String :=
  if m.task_list.isEmpty then
    "Task List:\n" ++ "  - No tasks in the task list.\n"
  else
    m.task_list.enum.foldl
      (fun acc p => acc ++ "  " ++ toString (p.1 + 1) ++ ".\t" ++ taskStr p.2 ++ "\n")
      ("Task List:\n")

/-- Concatenation of a list of strings. -/
def strConcat (l : List String) : String :=
  l.foldr (fun a b => a ++ b) ""

/-- Rendering of a collection as the spec sentence literally reads: one
entry per task of exactly the form `"N.\t<task textual form>"`, one per
line, with no header and no indentation.  Used to compare the claimed
format against `managerStr`. -/
def claimMgrStr (m : TaskManager) : String :=
  strConcat (m.task_list.enum.map
    (fun p => toString (p.1 + 1) ++ ".\t" ++ taskStr p.2 ++ "\n"))

/-- `TaskID.generate`, with the class counter `_last_task_id` made an
explicit state: increment, then return the counter's `str()`. -/
def TaskID.generate (last : Int) : Int × String :=
  (last + 1, toString (last + 1))

/-- The identifiers returned by `n` successive `TaskID.generate` calls
starting from counter state `last`. -/
def issue : Int → Nat → List String
  | _, 0 => []
  | last, n + 1 =>
    (TaskID.generate last).2 :: issue (TaskID.generate last).1 n

/-- One observable operation on a `TaskManager`, for the reachability
invariant: `add`, `get` (which never mutates) or `delete`. -/
inductive Step where
  | add (t : Task) : Step
  | get (i : IdArg) : Step
  | del (d : DelArg) : Step

/-- Apply one operation; a raised exception leaves the state unchanged
(the source only mutates `task_list` after all checks pass). -/
def applyStep (m : TaskManager) (s : Step) : TaskManager :=
  match s with
  | .add t =>
    match add_task m t with
    | .ok m2 => m2
    | .error _ => m
  | .get _ => m
  | .del d =>
    match delete_task m d with
    | .ok m2 => m2
    | .error _ => m

/-- The state after running a sequence of operations from a freshly
constructed (empty) `TaskManager`. -/
def runSteps (l : List Step) : TaskManager :=
  l.foldl applyStep ⟨[]⟩

/-- The collection invariant: no two tasks in the list compare equal,
i.e. all stored ids are pairwise distinct. -/
def TMInv (m : TaskManager) : Prop :=
  m.task_list.Pairwise (fun a b => a.task_id ≠ b.task_id)

/-! ### Helper lemmas: decimal representations are injective -/

theorem digitVal_digitChar : ∀ m : Nat, m < 10 → digitVal (Nat.digitChar m) = m := by
  decide

theorem toDigitsCore_acc (f : Nat) : ∀ (n : Nat) (acc : List Char),
    Nat.toDigitsCore 10 f n acc = Nat.toDigitsCore 10 f n [] ++ acc := by
  induction f with
  | zero => intro n acc; rfl
  | succ f ih =>
    intro n acc
    simp only [Nat.toDigitsCore]
    by_cases h : n / 10 = 0
    · simp [h]
    · simp only [h, if_false]
      rw [ih (n / 10) (Nat.digitChar (n % 10) :: acc),
        ih (n / 10) [Nat.digitChar (n % 10)], List.append_assoc]
      rfl

theorem valOfChars_append_one (l : List Char) (c : Char) :
    valOfChars (l ++ [c]) = valOfChars l * 10 + digitVal c := by
  unfold valOfChars
  rw [List.foldl_append]
  rfl

theorem valOfChars_toDigitsCore (f : Nat) : ∀ n : Nat, n < 10 ^ f →
    valOfChars (Nat.toDigitsCore 10 f n []) = n := by
  induction f with
  | zero => intro n h; interval_cases n; rfl
  | succ f ih =>
    intro n h
    simp only [Nat.toDigitsCore]
    by_cases h0 : n / 10 = 0
    · have hn : n < 10 := (Nat.div_eq_zero_iff (by norm_num)).mp h0
      simp only [h0, if_pos]
      show valOfChars [Nat.digitChar (n % 10)] = n
      have hv : valOfChars [Nat.digitChar (n % 10)] = digitVal (Nat.digitChar (n % 10)) := by
        simp [valOfChars, List.foldl]
      rw [hv, digitVal_digitChar (n % 10) (Nat.mod_lt n (by norm_num)), Nat.mod_eq_of_lt hn]
    · have hd : n / 10 < 10 ^ f := by
        rw [Nat.div_lt_iff_lt_mul (by norm_num)]
        calc n < 10 ^ (f + 1) := h
        _ = 10 ^ f * 10 := by ring
      simp only [h0, if_false]
      rw [toDigitsCore_acc, valOfChars_append_one, ih (n / 10) hd,
        digitVal_digitChar (n % 10) (Nat.mod_lt n (by norm_num))]
      omega

theorem valOfChars_natRepr (n : Nat) : valOfChars (Nat.toDigits 10 n) = n := by
  have h1 : n < 10 ^ (n + 1) := by
    calc n < 2 ^ n := Nat.lt_two_pow n
    _ ≤ 10 ^ n := Nat.pow_le_pow_left (by norm_num) n
    _ ≤ 10 ^ (n + 1) := Nat.pow_le_pow_right (by norm_num) (Nat.le_succ n)
  exact valOfChars_toDigitsCore (n + 1) n h1

theorem natRepr_injective : Function.Injective Nat.repr := by
  intro a b h
  have h2 : Nat.toDigits 10 a = Nat.toDigits 10 b := by
    have h3 := congrArg String.data h
    simpa [Nat.repr, List.asString] using h3
  calc a = valOfChars (Nat.toDigits 10 a) := (valOfChars_natRepr a).symm
  _ = valOfChars (Nat.toDigits 10 b) := by rw [h2]
  _ = b := valOfChars_natRepr b

theorem issue_eq (n : Nat) : ∀ k : Nat,
    issue ((k : Int) - 1) n = (List.range' k n).map Nat.repr := by
  induction n with
  | zero => intro k; rfl
  | succ n ih =>
    intro k
    have h1 : ((k : Int) - 1) + 1 = ((k + 1 : Nat) : Int) - 1 := by push_cast; ring
    have h2 : toString (((k : Int) - 1) + 1) = Nat.repr k := by
      have : ((k : Int) - 1) + 1 = (k : Int) := by ring
      rw [this]; rfl
    show toString (((k : Int) - 1) + 1) :: issue (((k : Int) - 1) + 1) n = _
    rw [h2, h1, ih (k + 1)]
    rfl

/-! ### Helper lemmas: splitting the `%m/%d/%Y` shape -/

theorem digits_no_slash {l : List Char} (h : l.all Char.isDigit) : ∀ c ∈ l, c ≠ '/' := by
  intro c hc
  have hd := List.all_eq_true.mp h c hc
  intro he
  rw [he] at hd
  exact absurd hd (by decide)

theorem splitSlashCore_append (r : List Char) : ∀ a : List Char, (∀ c ∈ a, c ≠ '/') →
    splitSlashCore (a ++ r) = (a ++ (splitSlashCore r).1, (splitSlashCore r).2) := by
  intro a
  induction a with
  | nil => intro _; simp
  | cons c a ih =>
    intro h
    have hc : c ≠ '/' := h c (List.mem_cons_self c a)
    simp only [List.cons_append, splitSlashCore, List.append_eq]
    rw [ih (fun d hd => h d (List.mem_cons_of_mem c hd))]
    simp [hc]

theorem splitSlash_append (a r : List Char) (h : ∀ c ∈ a, c ≠ '/') :
    splitSlash (a ++ '/' :: r) = a :: splitSlash r := by
  unfold splitSlash
  rw [splitSlashCore_append ('/' :: r) a h]
  simp [splitSlashCore]

theorem splitSlash_noSlash (a : List Char) (h : ∀ c ∈ a, c ≠ '/') :
    splitSlash a = [a] := by
  unfold splitSlash
  have h2 := splitSlashCore_append [] a h
  rw [List.append_nil] at h2
  rw [h2]
  simp [splitSlashCore]

theorem spanDigits_append (r : List Char) : ∀ a : List Char, a.all Char.isDigit →
    spanDigits (a ++ r) = (a ++ (spanDigits r).1, (spanDigits r).2) := by
  intro a
  induction a with
  | nil => intro _; simp
  | cons c a ih =>
    intro h
    have hc : c.isDigit := by
      have := List.all_eq_true.mp h c (List.mem_cons_self c a)
      simpa using this
    simp only [List.cons_append, spanDigits, List.append_eq]
    rw [ih (by
      refine List.all_eq_true.mpr ?_
      intro d hd
      exact List.all_eq_true.mp h d (List.mem_cons_of_mem c hd))]
    simp [hc]

theorem spanDigits_slash (r : List Char) : spanDigits ('/' :: r) = ([], '/' :: r) := by
  simp [spanDigits]

/-! ### Concrete fixtures (mirroring the repository's test data) -/

/-- A task as the first one built in the tests: id `"0"`, title `"task 1"`. -/
def task0 : Task := ⟨"0", "task 1", Option.none, ⟨2024, 1, 1, 0, 0⟩, "pending"⟩

/-- A second task with the next generated id. -/
def task1 : Task := ⟨"1", "task 2", Option.none, ⟨2024, 1, 1, 0, 0⟩, "pending"⟩

/-- A task whose id is absent from the fixtures below. -/
def task9 : Task := ⟨"9", "Not Added", Option.none, ⟨2024, 1, 1, 0, 0⟩, "pending"⟩

/-- A manager holding `task0` then `task1`. -/
def mgr01 : TaskManager := ⟨[task0, task1]⟩

/-- A manager holding only `task0`. -/
def mgr0 : TaskManager := ⟨[task0]⟩

/-- A freshly constructed, empty manager. -/
def mgrE : TaskManager := ⟨[]⟩

/-! ### Claim theorems -/

/-- C1 (code bug): `delete_task` does not resolve an id the way `get_task`
does.  On `mgr01`, `get_task` finds the task with (string) id `"0"`, but
`delete_task` with the same id raises `AttributeError` (it evaluates
`task.task_id` on the string), and `delete_task` with the `int` `0` raises
`TaskNotFoundError` even though the task is present, because the stored
string id `"0"` never compares equal to an `int`.  Only deletion by `Task`
reference removes the entity. -/
theorem delete_by_id_diverges_from_get :
    get_task mgr01 (.str ("0")) = .ok task0
      ∧ delete_task mgr01 (.str ("0")) = .error .attributeError
      ∧ delete_task mgr01 (.int 0) = .error (.taskNotFoundError (.int 0))
      ∧ delete_task mgr01 (.task task0) = .ok ⟨[task1]⟩ :=
  ⟨rfl, rfl, rfl, rfl⟩

/-- C2 (code bug): on an empty collection, `get_task` raises
`EmptyTaskListError` for every identifier, and `delete_task` does so for
`int` and `Task` arguments — but for a plain string id (the actual type of
stored ids, and what the repository's own test passes) `delete_task`
raises `AttributeError` before the emptiness check is ever reached. -/
theorem empty_collection_errors :
    get_task mgrE (.str ("0")) = .error (.emptyTaskListError ("get_task()"))
      ∧ get_task mgrE (.int 0) = .error (.emptyTaskListError ("get_task()"))
      ∧ delete_task mgrE (.int 0) =
          .error (.emptyTaskListError ("`delete_task()` for `task_id` == 0"))
      ∧ delete_task mgrE (.task task0) =
          .error (.emptyTaskListError ("`delete_task()` for `task_id` == 0"))
      ∧ delete_task mgrE (.str ("0")) = .error .attributeError :=
  ⟨rfl, rfl, rfl, rfl, rfl⟩

/-- C7: the identifiers returned by `N` successive `TaskID.generate` calls
in one process (counter starting at its initial `-1`) are pairwise
distinct, and there are `N` of them — so `N` constructed Tasks get `N`
distinct ids, deletions never touching the counter. -/
theorem generated_ids_distinct (n : Nat) :
    (issue (-1) n).Nodup ∧ (issue (-1) n).length = n := by
  have h : issue (-1) n = (List.range' 0 n).map Nat.repr := by
    have h0 := issue_eq n 0
    norm_num at h0
    exact h0
  constructor
  · rw [h]
    exact (List.nodup_range' 0 n).map natRepr_injective
  · rw [h]
    simp

/-- C3 counterexample: the claim's canonical set spells the middle status
`in_progress`, but the code's `VALID_STATUSES` contains `"in progress"`
(with a space): the string `"in progress"` validates although its
lower-cased form is not in the claimed set, and `"in_progress"` does not
validate. -/
theorem status_underscore_refuted :
    ¬ (validate_status (some ("in progress")) = true ↔
        pyLower ("in progress") ∈ (["pending", "in_progress", "completed"] : List String))
      ∧ validate_status (some ("in_progress")) = false := by
  constructor
  · intro h
    have := h.mp (by decide)
    exact absurd this (by decide)
  · rfl

/-- C3 amended: the canonical status set is `{pending, "in progress",
completed}` (space, not underscore); `validate_status(s)` holds iff the
lower-cased form of `s` is in that set; setting such a status stores the
lower-cased canonical form, and any other string is rejected with
`InvalidTaskStatusError`. -/
theorem status_validation_spec :
    (∀ s : String, validate_status (some s) = true ↔ pyLower s ∈ VALID_STATUSES)
      ∧ validate_status Option.none = false
      ∧ (∀ (t : Task) (s : String), pyLower s ∈ VALID_STATUSES →
          t.setStatus (some s) = .ok { t with status := pyLower s })
      ∧ (∀ (t : Task) (s : String), pyLower s ∉ VALID_STATUSES →
          t.setStatus (some s) = .error (.invalidTaskStatusError t.task_id (some s))) := by
  have hiff : ∀ s : String, validate_status (some s) = true ↔ pyLower s ∈ VALID_STATUSES := by
    intro s
    simp [validate_status, List.elem_iff]
  refine ⟨hiff, rfl, ?_, ?_⟩
  · intro t s hs
    have hv : validate_status (some s) = true := (hiff s).mpr hs
    simp [Task.setStatus, hv]
  · intro t s hs
    have hv : validate_status (some s) = false := by
      cases h : validate_status (some s)
      · rfl
      · exact absurd ((hiff s).mp h) hs
    simp [Task.setStatus, hv]

/-- C3 witness. -/
theorem status_validation_spec_witness :
    task0.setStatus (some ("COMPLETED")) = .ok { task0 with status := "completed" }
      ∧ task0.setStatus (some ("done")) =
          .error (.invalidTaskStatusError ("0") (some ("done"))) :=
  ⟨status_validation_spec.2.2.1 task0 ("COMPLETED") (by decide),
   status_validation_spec.2.2.2 task0 ("done") (by decide)⟩


/-- C5: `add_task` raises `AddDuplicateTaskError` carrying the attempted
task's title when an entity with the same id is already present (the
collection being untouched on that failure), and otherwise appends the
task at the end, preserving the order of all earlier entities. -/
theorem add_task_spec (m : TaskManager) (t : Task) :
    ((∃ e ∈ m.task_list, e.task_id = t.task_id) →
        add_task m t = .error (.addDuplicateTaskError t.title))
      ∧ ((∀ e ∈ m.task_list, e.task_id ≠ t.task_id) →
        add_task m t = .ok ⟨m.task_list ++ [t]⟩) := by
  constructor
  · rintro ⟨e, he, heq⟩
    have h : m.task_list.any (fun e => taskEq e t) = true :=
      List.any_eq_true.mpr ⟨e, he, by simp [taskEq, heq]⟩
    simp [add_task, h]
  · intro hall
    have h : m.task_list.any (fun e => taskEq e t) = false := by
      cases hx : m.task_list.any (fun e => taskEq e t)
      · rfl
      · obtain ⟨e, he, heq⟩ := List.any_eq_true.mp hx
        exact absurd (by simpa [taskEq] using heq) (hall e he)
    simp [add_task, h]

/-- C5 witness. -/
theorem add_task_spec_witness :
    add_task mgrE task0 = .ok ⟨[task0]⟩
      ∧ add_task mgr01 task0 = .error (.addDuplicateTaskError ("task 1")) :=
  ⟨(add_task_spec mgrE task0).2 (by simp [mgrE]),
   (add_task_spec mgr01 task0).1 ⟨task0, by simp [mgr01], rfl⟩⟩

/-- C6: a title that is non-empty after stripping is accepted by the
constructor and stored verbatim; `None`, empty and whitespace-only titles
are rejected with `InvalidTaskTitleError` both at construction and by the
`title` setter, the task being left unchanged on setter failure. -/
theorem title_validation_spec (id : String) (now : DateTime) (desc : Option String)
    (s : String) (t : Task) :
    (pyStrip s ≠ "" →
        mkTask id now (some s) desc .none (some ("pending")) =
          .ok ⟨id, s, desc, now, "pending"⟩)
      ∧ (pyStrip s = "" →
        mkTask id now (some s) desc .none (some ("pending")) =
          .error (.invalidTaskTitleError id))
      ∧ mkTask id now Option.none desc .none (some ("pending")) =
          .error (.invalidTaskTitleError id)
      ∧ (pyStrip s ≠ "" → t.setTitle (some s) = .ok { t with title := s })
      ∧ (pyStrip s = "" → t.setTitle (some s) = .error (.invalidTaskTitleError t.task_id))
      ∧ t.setTitle Option.none = .error (.invalidTaskTitleError t.task_id) := by
  refine ⟨?_, ?_, rfl, ?_, ?_, rfl⟩
  · intro h
    have hv : validate_title (some s) = true := by simp [validate_title, h]
    unfold mkTask
    rw [if_pos hv]
    rfl
  · intro h
    have hv : validate_title (some s) = false := by simp [validate_title, h]
    unfold mkTask
    rw [if_neg (by simp [hv])]
  · intro h
    have hv : validate_title (some s) = true := by simp [validate_title, h]
    unfold Task.setTitle
    rw [if_pos hv]
    rfl
  · intro h
    have hv : validate_title (some s) = false := by simp [validate_title, h]
    unfold Task.setTitle
    rw [if_neg (by simp [hv])]

/-- C6 witness. -/
theorem title_validation_spec_witness :
    mkTask ("0") ⟨2024, 1, 1, 0, 0⟩ (some ("task 1")) Option.none .none (some ("pending")) =
        .ok ⟨"0", "task 1", Option.none, ⟨2024, 1, 1, 0, 0⟩, "pending"⟩
      ∧ mkTask ("1") ⟨2024, 1, 1, 0, 0⟩ (some (" \t\n")) Option.none .none (some ("pending")) =
        .error (.invalidTaskTitleError ("1"))
      ∧ task0.setTitle (some ("")) = .error (.invalidTaskTitleError ("0")) :=
  ⟨(title_validation_spec ("0") ⟨2024, 1, 1, 0, 0⟩ Option.none ("task 1") task0).1 (by decide),
   (title_validation_spec ("1") ⟨2024, 1, 1, 0, 0⟩ Option.none (" \t\n") task0).2.1 (by decide),
   (title_validation_spec ("0") ⟨2024, 1, 1, 0, 0⟩ Option.none ("") task0).2.2.2.2.1 (by decide)⟩

/-- C10: for a valid title, constructing with a falsy `status` (empty
string or `None`) or a falsy `due_date` (empty string or `None`) raises
nothing: the constructor tests truthiness before validating, substituting
`"pending"` resp. `datetime.now()`, even though `validate_status("")` and
`validate_due_date("")` are both false. -/
theorem falsy_constructor_defaults (id : String) (now : DateTime)
    (desc : Option String) (s : String) :
    pyStrip s ≠ "" →
      validate_status (some ("")) = false
        ∧ validate_due_date (.str ("")) = false
        ∧ mkTask id now (some s) desc .none (some ("")) = .ok ⟨id, s, desc, now, "pending"⟩
        ∧ mkTask id now (some s) desc (.str ("")) Option.none =
            .ok ⟨id, s, desc, now, "pending"⟩
        ∧ mkTask id now (some s) desc (.str ("")) (some ("")) =
            .ok ⟨id, s, desc, now, "pending"⟩ := by
  intro h
  have hv : validate_title (some s) = true := by simp [validate_title, h]
  refine ⟨rfl, rfl, ?_, ?_, ?_⟩ <;> (unfold mkTask; rw [if_pos hv]; rfl)

/-- C10 witness. -/
theorem falsy_constructor_defaults_witness :
    mkTask ("4") ⟨2025, 6, 10, 12, 0⟩ (some ("Title")) Option.none (.str ("")) (some ("")) =
      .ok ⟨"4", "Title", Option.none, ⟨2025, 6, 10, 12, 0⟩, "pending"⟩ :=
  (falsy_constructor_defaults ("4") ⟨2025, 6, 10, 12, 0⟩ Option.none ("Title")
    (by decide)).2.2.2.2


/-- A successful `delete_task` only removes elements: the resulting list is
a sublist of the original. -/
theorem delete_task_ok_sublist (m : TaskManager) (d : DelArg) (m2 : TaskManager)
    (h : delete_task m d = .ok m2) : m2.task_list.Sublist m.task_list := by
  unfold delete_task at h
  cases d with
  | str s => simp at h
  | int n =>
    by_cases he : m.task_list.isEmpty
    · simp [he] at h
    · simp only [he, Bool.false_eq_true, if_false] at h
      cases hf : m.task_list.find? (fun t => idMatches t.task_id (.int n)) with
      | none => simp [hf] at h
      | some t =>
        simp only [hf] at h
        cases h
        exact List.eraseP_sublist _
  | task t0 =>
    by_cases he : m.task_list.isEmpty
    · simp [he] at h
    · simp only [he, Bool.false_eq_true, if_false] at h
      cases hf : m.task_list.find? (fun t => idMatches t.task_id (.str t0.task_id)) with
      | none => simp [hf] at h
      | some t =>
        simp only [hf] at h
        cases h
        exact List.eraseP_sublist _

/-- C8: no two entities of a collection compare equal (all ids are pairwise
distinct): each of `add`, `get`, `delete` preserves this invariant, and it
holds in every state reachable from a freshly constructed collection. -/
theorem collection_no_duplicates :
    (∀ (m : TaskManager) (s : Step), TMInv m → TMInv (applyStep m s))
      ∧ ∀ l : List Step, TMInv (runSteps l) := by
  have hstep : ∀ (m : TaskManager) (s : Step), TMInv m → TMInv (applyStep m s) := by
    intro m s hm
    cases s with
    | get i => exact hm
    | add t =>
      simp only [applyStep, add_task]
      by_cases h : m.task_list.any (fun e => taskEq e t) = true
      · simp only [if_pos h]
        exact hm
      · simp only [if_neg h]
        show TMInv ⟨m.task_list ++ [t]⟩
        unfold TMInv at hm ⊢
        rw [List.pairwise_append]
        refine ⟨hm, List.pairwise_singleton _ _, ?_⟩
        intro a ha b hb
        rw [List.mem_singleton] at hb
        subst hb
        intro heq
        exact h (List.any_eq_true.mpr ⟨a, ha, by simp [taskEq, heq]⟩)
    | del d =>
      simp only [applyStep]
      cases hdel : delete_task m d with
      | error e => exact hm
      | ok m2 => exact List.Pairwise.sublist (delete_task_ok_sublist m d m2 hdel) hm
  refine ⟨hstep, ?_⟩
  have hgen : ∀ (l : List Step) (m : TaskManager), TMInv m → TMInv (l.foldl applyStep m) := by
    intro l
    induction l with
    | nil => intro m hm; exact hm
    | cons s l ih => intro m hm; exact ih _ (hstep m s hm)
  intro l
  exact hgen l ⟨[]⟩ List.Pairwise.nil

/-- C8 witness. -/
theorem collection_no_duplicates_witness :
    TMInv mgr01 ∧ TMInv (applyStep mgr01 (.add task9)) := by
  have hInv : TMInv mgr01 := by
    simp [TMInv, mgr01, task0, task1]
  exact ⟨hInv, collection_no_duplicates.1 mgr01 (.add task9) hInv⟩


/-- The rendering loop of `TaskManager.__str__`, as a closed form: folding
the entry-appending step over the enumerated tasks concatenates the
entries after the accumulator. -/
theorem managerStr_foldl (l : List Task) : ∀ (i : Nat) (acc : String),
    (List.enumFrom i l).foldl
        (fun acc p => acc ++ "  " ++ toString (p.1 + 1) ++ ".\t" ++ taskStr p.2 ++ "\n") acc
      = acc ++ strConcat ((List.enumFrom i l).map
          (fun p => "  " ++ toString (p.1 + 1) ++ ".\t" ++ taskStr p.2 ++ "\n")) := by
  induction l with
  | nil =>
    intro i acc
    simp [strConcat, List.enumFrom]
  | cons t l ih =>
    intro i acc
    rw [List.enumFrom_cons]
    simp only [List.foldl_cons, List.map_cons]
    rw [ih (i + 1)]
    show _ = acc ++ strConcat (_ :: _)
    unfold strConcat
    rw [List.foldr_cons]
    simp [String.append_assoc]

/-- C9 counterexample: the entries of `TaskManager.__str__` are not
exactly of the form `"N.\t<task textual form>"`: on a one-element
collection the rendering carries a `"Task List:"` header line and two
spaces of indentation before `"1.\t..."`, so it differs from the
claimed form. -/
theorem manager_render_refuted :
    managerStr mgr0 ≠ claimMgrStr mgr0
      ∧ managerStr mgr0 = "Task List:\n  1.\ttask 1 (ID #0)\n"
      ∧ claimMgrStr mgr0 = "1.\ttask 1 (ID #0)\n" := by
  refine ⟨?_, rfl, rfl⟩
  intro h
  rw [show managerStr mgr0 = "Task List:\n  1.\ttask 1 (ID #0)\n" from rfl,
    show claimMgrStr mgr0 = "1.\ttask 1 (ID #0)\n" from rfl] at h
  exact absurd h (by decide)

/-- C9 amended: a Task renders as `"<title> (ID #<id>)"`; a collection
renders as the header line `"Task List:"` followed by one line per entity
of the form `"  N.\t<task textual form>"` (two leading spaces, `N` the
one-indexed position), and an empty collection renders as the header
followed by the fixed line `"  - No tasks in the task list."`. -/
theorem render_formats :
    (∀ t : Task, taskStr t = t.title ++ " (ID #" ++ t.task_id ++ ")")
      ∧ managerStr ⟨[]⟩ = "Task List:\n  - No tasks in the task list.\n"
      ∧ ∀ m : TaskManager, m.task_list ≠ [] →
          managerStr m = "Task List:\n" ++ strConcat (m.task_list.enum.map
            (fun p => "  " ++ toString (p.1 + 1) ++ ".\t" ++ taskStr p.2 ++ "\n")) := by
  refine ⟨fun t => rfl, rfl, ?_⟩
  intro m hm
  have he : m.task_list.isEmpty = false := by
    cases hl : m.task_list with
    | nil => exact absurd hl hm
    | cons t l => rfl
  unfold managerStr
  rw [if_neg (by simp [he])]
  exact managerStr_foldl m.task_list 0 ("Task List:\n")

/-- C9 witness. -/
theorem render_formats_witness :
    managerStr mgr01 = "Task List:\n" ++ strConcat (mgr01.task_list.enum.map
      (fun p => "  " ++ toString (p.1 + 1) ++ ".\t" ++ taskStr p.2 ++ "\n")) :=
  render_formats.2.2 mgr01 (by simp [mgr01])


/-- Scanning an all-digit list yields the whole list. -/
theorem spanDigits_all (a : List Char) (h : a.all Char.isDigit) : spanDigits a = (a, []) := by
  have h2 := spanDigits_append [] a h
  rw [List.append_nil] at h2
  rw [h2]
  simp [spanDigits]

/-- C4 counterexample: `"01/01/0000"` is an `M/D/YYYY` string with month 1,
day 1 (valid for January of any year by the day-count rule) and an exactly
four-digit year, yet `validate_due_date` returns false and the setter
raises, because `datetime` rejects year 0. -/
theorem due_date_year_zero_refuted :
    ("0000" : String).data.all Char.isDigit = true
      ∧ ("0000" : String).data.length = 4
      ∧ 1 ≤ daysInMonth 1 0
      ∧ validate_due_date (.str ("01/01/0000")) = false
      ∧ task0.setDueDate (.str ("01/01/0000")) =
          .error (.invalidTaskDueDateError ("0") (.str ("01/01/0000"))) :=
  ⟨by decide, by decide, by decide, rfl, rfl⟩

/-- C4 amended: every string `M/D/YYYY` with one-or-two-digit month
`1 ≤ M ≤ 12`, a day valid for that month and year, and an exactly
four-digit year **of value at least 1** validates, and setting it stores
the parsed date at midnight, month first; the malformed candidates
(`"2024-01-01"`, `"13/01/2024"`, `"02/30/2024"`, `"1/1/24"`, `""`, `None`)
all fail validation and make the setter raise `InvalidTaskDueDateError`. -/
theorem due_date_validation_spec (t : Task) (ms ds ys : String) :
    ((ms.data.all Char.isDigit = true ∧ 1 ≤ ms.length ∧ ms.length ≤ 2 ∧
      1 ≤ valOfChars ms.data ∧ valOfChars ms.data ≤ 12 ∧
      ds.data.all Char.isDigit = true ∧ 1 ≤ ds.length ∧ ds.length ≤ 2 ∧
      1 ≤ valOfChars ds.data ∧
      valOfChars ds.data ≤ daysInMonth (valOfChars ms.data) (valOfChars ys.data) ∧
      ys.data.all Char.isDigit = true ∧ ys.length = 4 ∧ 1 ≤ valOfChars ys.data) →
      (validate_due_date (.str (ms ++ "/" ++ ds ++ "/" ++ ys)) = true ∧
        t.setDueDate (.str (ms ++ "/" ++ ds ++ "/" ++ ys)) =
          .ok { t with due_date :=
            ⟨valOfChars ys.data, valOfChars ms.data, valOfChars ds.data, 0, 0⟩ }))
      ∧ validate_due_date (.str ("2024-01-01")) = false
      ∧ validate_due_date (.str ("13/01/2024")) = false
      ∧ validate_due_date (.str ("02/30/2024")) = false
      ∧ validate_due_date (.str ("1/1/24")) = false
      ∧ validate_due_date (.str ("")) = false
      ∧ validate_due_date .none = false
      ∧ t.setDueDate (.str ("2024-01-01")) =
          .error (.invalidTaskDueDateError t.task_id (.str ("2024-01-01")))
      ∧ t.setDueDate (.str ("13/01/2024")) =
          .error (.invalidTaskDueDateError t.task_id (.str ("13/01/2024")))
      ∧ t.setDueDate (.str ("02/30/2024")) =
          .error (.invalidTaskDueDateError t.task_id (.str ("02/30/2024")))
      ∧ t.setDueDate (.str ("1/1/24")) =
          .error (.invalidTaskDueDateError t.task_id (.str ("1/1/24")))
      ∧ t.setDueDate (.str ("")) = .error (.invalidTaskDueDateError t.task_id (.str ("")))
      ∧ t.setDueDate .none = .error (.invalidTaskDueDateError t.task_id .none) := by
  refine ⟨?_, rfl, rfl, rfl, rfl, rfl, rfl, rfl, rfl, rfl, rfl, rfl, rfl⟩
  rintro ⟨hma, hm1, hm2, hmv1, hmv2, hda, hd1, hd2, hdv1, hdv2, hya, hy4, hyv⟩
  have hslashdata : ("/" : String).data = ['/'] := rfl
  have hdata : (ms ++ "/" ++ ds ++ "/" ++ ys).data
      = ms.data ++ '/' :: (ds.data ++ '/' :: ys.data) := by
    simp [String.data_append, hslashdata, List.append_assoc]
  have hsplit : splitSlash (ms ++ "/" ++ ds ++ "/" ++ ys).data
      = [ms.data, ds.data, ys.data] := by
    rw [hdata, splitSlash_append _ _ (digits_no_slash hma),
      splitSlash_append _ _ (digits_no_slash hda),
      splitSlash_noSlash _ (digits_no_slash hya)]
  have hparse : pyStrptimeMDY (ms ++ "/" ++ ds ++ "/" ++ ys)
      = some ⟨valOfChars ys.data, valOfChars ms.data, valOfChars ds.data, 0, 0⟩ := by
    unfold pyStrptimeMDY
    rw [hsplit]
    simp [hma, hda, hya, hm1, hm2, hd1, hd2, hy4, hmv1, hmv2, hdv1, hdv2, hyv]
  have hregex : regexDue (ms ++ "/" ++ ds ++ "/" ++ ys) = true := by
    unfold regexDue
    rw [hdata, spanDigits_append _ _ hma, spanDigits_slash]
    simp only [List.append_nil]
    rw [spanDigits_append _ _ hda, spanDigits_slash]
    simp only [List.append_nil]
    rw [spanDigits_all _ hya]
    simp [hm1, hm2, hd1, hd2, hy4]
  have hval : validate_due_date (.str (ms ++ "/" ++ ds ++ "/" ++ ys)) = true := by
    show (regexDue (ms ++ "/" ++ ds ++ "/" ++ ys)
      && (pyStrptimeMDY (ms ++ "/" ++ ds ++ "/" ++ ys)).isSome) = true
    rw [hregex, hparse]
    rfl
  refine ⟨hval, ?_⟩
  have hstep : t.setDueDate (.str (ms ++ "/" ++ ds ++ "/" ++ ys)) =
      .ok { t with due_date := resolveDue (.str (ms ++ "/" ++ ds ++ "/" ++ ys)) } := by
    unfold Task.setDueDate
    rw [if_pos hval]
  have hres : resolveDue (.str (ms ++ "/" ++ ds ++ "/" ++ ys)) =
      ⟨valOfChars ys.data, valOfChars ms.data, valOfChars ds.data, 0, 0⟩ := by
    show (pyStrptimeMDY (ms ++ "/" ++ ds ++ "/" ++ ys)).getD ⟨1900, 1, 1, 0, 0⟩ = _
    rw [hparse]
    rfl
  rw [hstep, hres]

/-- C4 witness. -/
theorem due_date_validation_spec_witness :
    task1.setDueDate (.str ("02/29/2024")) =
        .ok { task1 with due_date := ⟨2024, 2, 29, 0, 0⟩ }
      ∧ validate_due_date (.str ("3/15/2025")) = true := by
  have h1 := (due_date_validation_spec task1 ("02") ("29") ("2024")).1 (by
    refine ⟨by decide, by decide, by decide, by decide, by decide, by decide, by decide,
      by decide, by decide, by decide, by decide, by decide, by decide⟩)
  have h2 := (due_date_validation_spec task1 ("3") ("15") ("2025")).1 (by
    refine ⟨by decide, by decide, by decide, by decide, by decide, by decide, by decide,
      by decide, by decide, by decide, by decide, by decide, by decide⟩)
  exact ⟨h1.2, h2.1⟩

end Cruddy
